import Mathlib

/-!
Shallow embedding of the ky0422/6502 toolchain: the CPU emulator
(src/emulator/src/processor/cpu.rs, registers.rs) and the assembler's
pass-2 operand emission (src/assembler/src/lib.rs).

Machine integers are modelled as `Nat` with explicit `% 256` / `% 65536`
where Rust wraps, and with `Option`-valued checked operations where Rust
uses unchecked (panicking-on-overflow in a checked build) `+` / `-` on
`u8` / `u16`.
-/

namespace Spec6502

/-! Checked and wrapping machine arithmetic.  Rust's plain `+` on `u16`
and plain `-` on `u8` panic on overflow in a checked build: modelled as
`Option`-valued operations.  `wrapping_add` / `wrapping_sub` on `u8`
reduce modulo 256. -/

/-- Checked 16-bit addition: `a + b` on `u16`, `none` on overflow. -/
def chkAdd16 (a b : Nat) : Option Nat :=
  if a + b ≤ 0xFFFF then some (a + b) else none

/-- Checked 8-bit subtraction: `a - b` on `u8`, `none` on underflow. -/
def chkSub8 (a b : Nat) : Option Nat :=
  if b ≤ a then some (a - b) else none

/-- `u8::wrapping_add`. -/
def wrapAdd8 (a b : Nat) : Nat := (a + b) % 256

/-- `u8::wrapping_sub` for `b ≤ 256` (all uses subtract 1 or a byte). -/
def wrapSub8 (a b : Nat) : Nat := (a + 256 - b) % 256

/-- Bitwise NOT on a byte: Rust `!data` on `u8` (`data < 256`). -/
def u8not (b : Nat) : Nat := 255 - b

/-- `offset as i8 as u16`: sign-extend a byte to 16 bits (bit pattern). -/
def signExt8 (b : Nat) : Nat := if b < 128 then b else 0xFF00 + b

/-! Flag bit-field helpers on the `p` byte, from registers.rs.
Layout MSB→LSB: `N V - B D I Z C`. -/

/-- `set_flag_negative` on the status byte (bit 7). -/
def set_n (p : Nat) (v : Bool) : Nat :=
  if v then p ||| 0b10000000 else p &&& 0b01111111

/-- `set_flag_overflow` on the status byte (bit 6). -/
def set_v (p : Nat) (v : Bool) : Nat :=
  if v then p ||| 0b01000000 else p &&& 0b10111111

/-- `set_flag_break` on the status byte (bit 4). -/
def set_b (p : Nat) (v : Bool) : Nat :=
  if v then p ||| 0b00010000 else p &&& 0b11101111

/-- `set_flag_decimal` on the status byte (bit 3). -/
def set_d (p : Nat) (v : Bool) : Nat :=
  if v then p ||| 0b00001000 else p &&& 0b11110111

/-- `set_flag_interrupt_disable` on the status byte (bit 2). -/
def set_i (p : Nat) (v : Bool) : Nat :=
  if v then p ||| 0b00000100 else p &&& 0b11111011

/-- `set_flag_zero` on the status byte (bit 1). -/
def set_z (p : Nat) (v : Bool) : Nat :=
  if v then p ||| 0b00000010 else p &&& 0b11111101

/-- `set_flag_carry` on the status byte (bit 0). -/
def set_c (p : Nat) (v : Bool) : Nat :=
  if v then p ||| 0b00000001 else p &&& 0b11111110

/-- `get_flag_negative` on the status byte. -/
def get_n (p : Nat) : Bool := p &&& 0b10000000 != 0

/-- `get_flag_overflow` on the status byte. -/
def get_v (p : Nat) : Bool := p &&& 0b01000000 != 0

/-- `get_flag_break` on the status byte. -/
def get_b (p : Nat) : Bool := p &&& 0b00010000 != 0

/-- `get_flag_decimal` on the status byte. -/
def get_d (p : Nat) : Bool := p &&& 0b00001000 != 0

/-- `get_flag_interrupt_disable` on the status byte. -/
def get_i (p : Nat) : Bool := p &&& 0b00000100 != 0

/-- `get_flag_zero` on the status byte. -/
def get_z (p : Nat) : Bool := p &&& 0b00000010 != 0

/-- `get_flag_carry` on the status byte. -/
def get_c (p : Nat) : Bool := p &&& 0b00000001 != 0

/-- The register file of registers.rs: `a x y p sp : u8`, `pc : u16`.
The per-register debugger field is trace-only and omitted. -/
structure Registers where
  a : Nat
  x : Nat
  y : Nat
  p : Nat
  sp : Nat
  pc : Nat
deriving Repr, DecidableEq

/-- `ORG`: load base, from the spec glossary and registers.rs default. -/
def ORG : Nat := 0x8000

/-- `STACK_BASE`, stack page base address. -/
def STACK_BASE : Nat := 0x0100

namespace Registers

/-- `Registers::default` / `reset`. -/
def reset : Registers := ⟨0, 0, 0, 0, 0, ORG⟩

def set_flag_negative (r : Registers) (v : Bool) : Registers :=
  { r with p := set_n r.p v }

def set_flag_overflow (r : Registers) (v : Bool) : Registers :=
  { r with p := set_v r.p v }

def set_flag_break (r : Registers) (v : Bool) : Registers :=
  { r with p := set_b r.p v }

def set_flag_decimal (r : Registers) (v : Bool) : Registers :=
  { r with p := set_d r.p v }

def set_flag_interrupt_disable (r : Registers) (v : Bool) : Registers :=
  { r with p := set_i r.p v }

def set_flag_zero (r : Registers) (v : Bool) : Registers :=
  { r with p := set_z r.p v }

def set_flag_carry (r : Registers) (v : Bool) : Registers :=
  { r with p := set_c r.p v }

def get_flag_negative (r : Registers) : Bool := get_n r.p

def get_flag_overflow (r : Registers) : Bool := get_v r.p

def get_flag_break (r : Registers) : Bool := get_b r.p

def get_flag_decimal (r : Registers) : Bool := get_d r.p

def get_flag_interrupt_disable (r : Registers) : Bool := get_i r.p

def get_flag_zero (r : Registers) : Bool := get_z r.p

def get_flag_carry (r : Registers) : Bool := get_c r.p

/-- `set_zero_negative_flags`: Z iff `value == 0`, N iff bit 7 set. -/
def set_zero_negative_flags (r : Registers) (value : Nat) : Registers :=
  (r.set_flag_zero (value == 0)).set_flag_negative (value &&& 0x80 != 0)

end Registers

/-! Memory bus.  memory.rs is not under src/; modelled from the spec. -/

/-- Modelled from the spec: §4.6 Memory Bus (memory.rs is not in src/).
Byte-addressable 64 KiB RAM as a function from address to byte. -/
def Mem : Type := Nat → Nat

namespace Memory

/-- Modelled from the spec: `read(addr) → u8`, no bounds checking. -/
def read (m : Mem) (addr : Nat) : Nat := m addr

/-- Modelled from the spec: `write(addr, v)`. -/
def write (m : Mem) (addr v : Nat) : Mem :=
  fun a => if a = addr then v else m a

/-- Modelled from the spec: `read_addr(addr) → u16`, the little-endian
pair `(mem[addr], mem[addr+1])`; the high-byte address wraps at
`0xFFFF` to `0x0000`. -/
def read_addr (m : Mem) (addr : Nat) : Nat :=
  read m addr + 256 * read m ((addr + 1) % 65536)

/-- Modelled from the spec: all-zero memory (`reset`). -/
def zeroed : Mem := fun _ => 0

/-- Modelled from the spec: `rom(bytes)` copies bytes starting at ORG. -/
def rom (m : Mem) (bytes : List Nat) : Mem :=
  fun a => if ORG ≤ a ∧ a < ORG + bytes.length then bytes.getD (a - ORG) 0 else m a

end Memory

/-- The addressing-mode enumeration used by the CPU core (variants as
used throughout cpu.rs; addressing_mode.rs is not in src/). -/
inductive AddressingMode
  | immediate
  | absolute
  | absoluteX
  | absoluteY
  | indirect
  | indirectX
  | indirectY
  | zeroPage
  | zeroPageX
  | zeroPageY
deriving Repr, DecidableEq

/-- CPU state: registers plus memory.  The debug sink is modelled by
`warns`, the number of `DebugKind::Warn` messages emitted (`Info`
trace messages carry no state and are dropped). -/
structure Cpu where
  registers : Registers
  memory : Mem
  warns : Nat

namespace Cpu

/-- `self.registers.pc += n` (unchecked `u16` addition). -/
def pcAdd (c : Cpu) (n : Nat) : Option Cpu :=
  (chkAdd16 c.registers.pc n).map
    (fun pc => { c with registers := { c.registers with pc := pc } })

/-- `get_address_from_mode` of cpu.rs: reads operand bytes at PC,
advances PC, returns the effective address.  Note the extra `pc += 2`
in the `IndirectX` / `IndirectY` arms, as in the source. -/
def get_address_from_mode (c : Cpu) (mode : AddressingMode) : Option (Nat × Cpu) :=
  match mode with
  | .immediate => do
      let data := c.registers.pc
      let c ← c.pcAdd 1
      pure (data, c)
  | .absolute => do
      let data := Memory.read_addr c.memory c.registers.pc
      let c ← c.pcAdd 2
      pure (data, c)
  | .absoluteX => do
      let base := Memory.read_addr c.memory c.registers.pc
      let c ← c.pcAdd 2
      let addr ← chkAdd16 base c.registers.x
      pure (addr, c)
  | .absoluteY => do
      let base := Memory.read_addr c.memory c.registers.pc
      let c ← c.pcAdd 2
      let addr ← chkAdd16 base c.registers.y
      pure (addr, c)
  | .indirect => do
      let ptr := Memory.read_addr c.memory c.registers.pc
      let c ← c.pcAdd 2
      pure (Memory.read_addr c.memory ptr, c)
  | .indirectX => do
      let base := Memory.read c.memory c.registers.pc
      let c ← c.pcAdd 1
      let ptr := wrapAdd8 base c.registers.x
      let data := Memory.read_addr c.memory ptr
      let c ← c.pcAdd 2
      pure (data, c)
  | .indirectY => do
      let ptr := Memory.read c.memory c.registers.pc
      let c ← c.pcAdd 1
      let data := Memory.read_addr c.memory ptr
      let c ← c.pcAdd 2
      let addr ← chkAdd16 data c.registers.y
      pure (addr, c)
  | .zeroPage => do
      let data := Memory.read c.memory c.registers.pc
      let c ← c.pcAdd 1
      pure (data, c)
  | .zeroPageX => do
      let data := Memory.read c.memory c.registers.pc
      let c ← c.pcAdd 1
      pure (wrapAdd8 data c.registers.x, c)
  | .zeroPageY => do
      let data := Memory.read c.memory c.registers.pc
      let c ← c.pcAdd 1
      pure (wrapAdd8 data c.registers.y, c)

/-- `get_data_from_addressing_mode`. -/
def get_data_from_addressing_mode (c : Cpu) (mode : AddressingMode) :
    Option (Nat × Cpu) := do
  let (address, c) ← c.get_address_from_mode mode
  pure (Memory.read c.memory address, c)

/-- `stack_push`: write at `STACK_BASE + SP`, then `SP -= 1` (wrap). -/
def stack_push (c : Cpu) (data : Nat) : Cpu :=
  let c := { c with memory := Memory.write c.memory (STACK_BASE + c.registers.sp) data }
  { c with registers := { c.registers with sp := wrapSub8 c.registers.sp 1 } }

/-- `stack_pop`: `SP += 1` (wrap), then read at `STACK_BASE + SP`. -/
def stack_pop (c : Cpu) : Nat × Cpu :=
  let sp := wrapAdd8 c.registers.sp 1
  let c := { c with registers := { c.registers with sp := sp } }
  (Memory.read c.memory (STACK_BASE + sp), c)

/-- `stack_push_addr`: push MSB then LSB of a 16-bit value. -/
def stack_push_addr (c : Cpu) (data : Nat) : Cpu :=
  let lsb := data % 256
  let msb := data / 256 % 256
  let c := c.stack_push msb
  c.stack_push lsb

/-- `stack_pop_addr`: pop LSB then MSB, reassemble little-endian. -/
def stack_pop_addr (c : Cpu) : Nat × Cpu :=
  let (lsb, c) := c.stack_pop
  let (msb, c) := c.stack_pop
  (lsb + 256 * msb, c)

/-- Applies a register-file transformation to the CPU state. -/
def mapRegisters (c : Cpu) (f : Registers → Registers) : Cpu :=
  { c with registers := f c.registers }

end Cpu

/-- `add_to_accumulator_with_carry` of cpu.rs.  The `u16` sum of two
bytes plus carry cannot overflow, so the additions are total; the
`sum as u8` cast is `% 256`. -/
def add_to_accumulator_with_carry (r : Registers) (data : Nat) : Registers :=
  let sum := if r.get_flag_carry then r.a + data + 1 else r.a + data
  let r := r.set_flag_carry (decide (sum > 0xFF))
  let sum8 := sum % 256
  let r := r.set_flag_overflow (((r.a ^^^ sum8) &&& (data ^^^ sum8)) &&& 0x80 != 0)
  let r := r.set_zero_negative_flags sum8
  { r with a := sum8 }

namespace Cpu

/-- `branch` of cpu.rs: fetch a signed 8-bit offset, advance PC past
it, then `pc.wrapping_add(offset as i8 as u16)`. -/
def branch (c : Cpu) : Option Cpu := do
  let offset := Memory.read c.memory c.registers.pc
  let c ← c.pcAdd 1
  let pc := c.registers.pc
  pure { c with registers := { c.registers with pc := (pc + signExt8 offset) % 65536 } }

/-- `adc`. -/
def adc (c : Cpu) (mode : AddressingMode) : Option Cpu := do
  let (data, c) ← c.get_data_from_addressing_mode mode
  pure (c.mapRegisters (add_to_accumulator_with_carry · data))

/-- `and`. -/
def and (c : Cpu) (mode : AddressingMode) : Option Cpu := do
  let (data, c) ← c.get_data_from_addressing_mode mode
  let r := { c.registers with a := c.registers.a &&& data }
  pure { c with registers := r.set_zero_negative_flags r.a }

/-- `asl`.  Note that for a memory mode the source resolves the
effective address a second time (after the operand fetch) before the
write-back, exactly as cpu.rs does. -/
def asl (c : Cpu) (mode : Option AddressingMode) : Option Cpu := do
  let (data, c) ←
    match mode with
    | some m => c.get_data_from_addressing_mode m
    | none => pure (c.registers.a, c)
  let c := c.mapRegisters (·.set_flag_carry (data &&& 0x80 != 0))
  let data := (data <<< 1) % 256
  let c := c.mapRegisters (·.set_zero_negative_flags data)
  match mode with
  | some m => do
      let (address, c) ← c.get_address_from_mode m
      pure { c with memory := Memory.write c.memory address data }
  | none => pure { c with registers := { c.registers with a := data } }

/-- `bcc`. -/
def bcc (c : Cpu) : Option Cpu :=
  if !c.registers.get_flag_carry then c.branch else c.pcAdd 1

/-- `bcs`. -/
def bcs (c : Cpu) : Option Cpu :=
  if c.registers.get_flag_carry then c.branch else c.pcAdd 1

/-- `beq`. -/
def beq (c : Cpu) : Option Cpu :=
  if c.registers.get_flag_zero then c.branch else c.pcAdd 1

/-- `bit`. -/
def bit (c : Cpu) (mode : AddressingMode) : Option Cpu := do
  let (data, c) ← c.get_data_from_addressing_mode mode
  let result := c.registers.a &&& data
  let r := c.registers.set_flag_negative (data &&& 0x80 != 0)
  let r := r.set_flag_overflow (data &&& 0x40 != 0)
  let r := r.set_flag_zero (result == 0)
  pure { c with registers := r }

/-- `bmi`. -/
def bmi (c : Cpu) : Option Cpu :=
  if c.registers.get_flag_negative then c.branch else c.pcAdd 1

/-- `bne`. -/
def bne (c : Cpu) : Option Cpu :=
  if !c.registers.get_flag_zero then c.branch else c.pcAdd 1

/-- `bpl`. -/
def bpl (c : Cpu) : Option Cpu :=
  if !c.registers.get_flag_negative then c.branch else c.pcAdd 1

/-- `bvc`. -/
def bvc (c : Cpu) : Option Cpu :=
  if !c.registers.get_flag_overflow then c.branch else c.pcAdd 1

/-- `bvs`. -/
def bvs (c : Cpu) : Option Cpu :=
  if c.registers.get_flag_overflow then c.branch else c.pcAdd 1

/-- `clc`. -/
def clc (c : Cpu) : Option Cpu := pure (c.mapRegisters (·.set_flag_carry false))

/-- `cld`. -/
def cld (c : Cpu) : Option Cpu := pure (c.mapRegisters (·.set_flag_decimal false))

/-- `cli`. -/
def cli (c : Cpu) : Option Cpu :=
  pure (c.mapRegisters (·.set_flag_interrupt_disable false))

/-- `clv`. -/
def clv (c : Cpu) : Option Cpu := pure (c.mapRegisters (·.set_flag_overflow false))

/-- `cmp`. -/
def cmp (c : Cpu) (mode : AddressingMode) : Option Cpu := do
  let (data, c) ← c.get_data_from_addressing_mode mode
  let result := wrapSub8 c.registers.a data
  let r := c.registers.set_zero_negative_flags result
  let r := r.set_flag_carry (decide (r.a ≥ data))
  pure { c with registers := r }

/-- `cpx`. -/
def cpx (c : Cpu) (mode : AddressingMode) : Option Cpu := do
  let (data, c) ← c.get_data_from_addressing_mode mode
  let result := wrapSub8 c.registers.x data
  let r := c.registers.set_zero_negative_flags result
  let r := r.set_flag_carry (decide (r.x ≥ data))
  pure { c with registers := r }

/-- `cpy`. -/
def cpy (c : Cpu) (mode : AddressingMode) : Option Cpu := do
  let (data, c) ← c.get_data_from_addressing_mode mode
  let result := wrapSub8 c.registers.y data
  let r := c.registers.set_zero_negative_flags result
  let r := r.set_flag_carry (decide (r.y ≥ data))
  pure { c with registers := r }

/-- `dec`: a genuine read-modify-write (single address resolution). -/
def dec (c : Cpu) (mode : AddressingMode) : Option Cpu := do
  let (addr, c) ← c.get_address_from_mode mode
  let data := wrapSub8 (Memory.read c.memory addr) 1
  let c := { c with memory := Memory.write c.memory addr data }
  pure (c.mapRegisters (·.set_zero_negative_flags data))

/-- `dex`. -/
def dex (c : Cpu) : Option Cpu :=
  pure <| c.mapRegisters fun r =>
    let r := { r with x := wrapSub8 r.x 1 }
    r.set_zero_negative_flags r.x

/-- `dey`. -/
def dey (c : Cpu) : Option Cpu :=
  pure <| c.mapRegisters fun r =>
    let r := { r with y := wrapSub8 r.y 1 }
    r.set_zero_negative_flags r.y

/-- `eor`. -/
def eor (c : Cpu) (mode : AddressingMode) : Option Cpu := do
  let (data, c) ← c.get_data_from_addressing_mode mode
  let r := { c.registers with a := c.registers.a ^^^ data }
  pure { c with registers := r.set_zero_negative_flags r.a }

/-- `inc`: a genuine read-modify-write (single address resolution). -/
def inc (c : Cpu) (mode : AddressingMode) : Option Cpu := do
  let (addr, c) ← c.get_address_from_mode mode
  let data := wrapAdd8 (Memory.read c.memory addr) 1
  let c := { c with memory := Memory.write c.memory addr data }
  pure (c.mapRegisters (·.set_zero_negative_flags data))

/-- `inx`. -/
def inx (c : Cpu) : Option Cpu :=
  pure <| c.mapRegisters fun r =>
    let r := { r with x := wrapAdd8 r.x 1 }
    r.set_zero_negative_flags r.x

/-- `iny`. -/
def iny (c : Cpu) : Option Cpu :=
  pure <| c.mapRegisters fun r =>
    let r := { r with y := wrapAdd8 r.y 1 }
    r.set_zero_negative_flags r.y

/-- `jmp`. -/
def jmp (c : Cpu) (mode : AddressingMode) : Option Cpu := do
  let (address, c) ← c.get_address_from_mode mode
  pure { c with registers := { c.registers with pc := address } }

/-- `jsr`: push `PC + 1` (the address of the last operand byte), then
jump to the absolute target. -/
def jsr (c : Cpu) : Option Cpu := do
  let ret ← chkAdd16 c.registers.pc 1
  let c := c.stack_push_addr ret
  let (address, c) ← c.get_address_from_mode .absolute
  pure { c with registers := { c.registers with pc := address } }

/-- `lda`. -/
def lda (c : Cpu) (mode : AddressingMode) : Option Cpu := do
  let (data, c) ← c.get_data_from_addressing_mode mode
  let r := { c.registers with a := data }
  pure { c with registers := r.set_zero_negative_flags r.a }

/-- `ldx`. -/
def ldx (c : Cpu) (mode : AddressingMode) : Option Cpu := do
  let (data, c) ← c.get_data_from_addressing_mode mode
  let r := { c.registers with x := data }
  pure { c with registers := r.set_zero_negative_flags r.x }

/-- `ldy`. -/
def ldy (c : Cpu) (mode : AddressingMode) : Option Cpu := do
  let (data, c) ← c.get_data_from_addressing_mode mode
  let r := { c.registers with y := data }
  pure { c with registers := r.set_zero_negative_flags r.y }

/-- `lsr`.  Same double address resolution as `asl` for memory modes. -/
def lsr (c : Cpu) (mode : Option AddressingMode) : Option Cpu := do
  let (data, c) ←
    match mode with
    | some m => c.get_data_from_addressing_mode m
    | none => pure (c.registers.a, c)
  let c := c.mapRegisters (·.set_flag_carry (data &&& 0x01 == 1))
  let data := data >>> 1
  let c := c.mapRegisters (·.set_zero_negative_flags data)
  match mode with
  | some m => do
      let (addr, c) ← c.get_address_from_mode m
      pure { c with memory := Memory.write c.memory addr data }
  | none => pure { c with registers := { c.registers with a := data } }

/-- `ora`. -/
def ora (c : Cpu) (mode : AddressingMode) : Option Cpu := do
  let (data, c) ← c.get_data_from_addressing_mode mode
  let r := { c.registers with a := c.registers.a ||| data }
  pure { c with registers := r.set_zero_negative_flags r.a }

/-- `pha`. -/
def pha (c : Cpu) : Option Cpu := pure (c.stack_push c.registers.a)

/-- `php`. -/
def php (c : Cpu) : Option Cpu := pure (c.stack_push c.registers.p)

/-- `pla`. -/
def pla (c : Cpu) : Option Cpu :=
  let (data, c) := c.stack_pop
  let r := { c.registers with a := data }
  pure { c with registers := r.set_zero_negative_flags r.a }

/-- `plp`. -/
def plp (c : Cpu) : Option Cpu :=
  let (data, c) := c.stack_pop
  pure { c with registers := { c.registers with p := data } }

/-- `rol`.  Same double address resolution as `asl` for memory modes. -/
def rol (c : Cpu) (mode : Option AddressingMode) : Option Cpu := do
  let (data, c) ←
    match mode with
    | some m => c.get_data_from_addressing_mode m
    | none => pure (c.registers.a, c)
  let carry := if c.registers.get_flag_carry then 1 else 0
  let c := c.mapRegisters (·.set_flag_carry (data &&& 0x80 == 0x80))
  let data := ((data <<< 1) % 256) ||| carry
  let c := c.mapRegisters (·.set_zero_negative_flags data)
  match mode with
  | some m => do
      let (addr, c) ← c.get_address_from_mode m
      pure { c with memory := Memory.write c.memory addr data }
  | none => pure { c with registers := { c.registers with a := data } }

/-- `ror`.  The source ORs the old carry into bit 0 (`(data >> 1) |
carry`), not bit 7; translated as written.  Same double address
resolution as `asl` for memory modes. -/
def ror (c : Cpu) (mode : Option AddressingMode) : Option Cpu := do
  let (data, c) ←
    match mode with
    | some m => c.get_data_from_addressing_mode m
    | none => pure (c.registers.a, c)
  let carry := if c.registers.get_flag_carry then 1 else 0
  let c := c.mapRegisters (·.set_flag_carry (data &&& 0x01 == 1))
  let data := (data >>> 1) ||| carry
  let c := c.mapRegisters (·.set_zero_negative_flags data)
  match mode with
  | some m => do
      let (addr, c) ← c.get_address_from_mode m
      pure { c with memory := Memory.write c.memory addr data }
  | none => pure { c with registers := { c.registers with a := data } }

/-- `rti`. -/
def rti (c : Cpu) : Option Cpu :=
  let (p, c) := c.stack_pop
  let c := { c with registers := { c.registers with p := p } }
  let (addr, c) := c.stack_pop_addr
  pure { c with registers := { c.registers with pc := addr } }

/-- `rts`: `PC ← pop-address + 1` (unchecked `u16` addition). -/
def rts (c : Cpu) : Option Cpu := do
  let (addr, c) := c.stack_pop_addr
  let pc ← chkAdd16 addr 1
  pure { c with registers := { c.registers with pc := pc } }

/-- The operand transformation of `sbc`: `!data - 1` on `u8`, a
checked subtraction that underflows exactly when `data = 0xFF`. -/
def sbc_operand (data : Nat) : Option Nat := chkSub8 (u8not data) 1

/-- The data path of `sbc` after the operand fetch: feed `!data - 1`
to `add_to_accumulator_with_carry`. -/
def sbcData (c : Cpu) (data : Nat) : Option Cpu :=
  (sbc_operand data).map (fun nd => c.mapRegisters (add_to_accumulator_with_carry · nd))

/-- `sbc`. -/
def sbc (c : Cpu) (mode : AddressingMode) : Option Cpu := do
  let (data, c) ← c.get_data_from_addressing_mode mode
  c.sbcData data

/-- `sec`. -/
def sec (c : Cpu) : Option Cpu := pure (c.mapRegisters (·.set_flag_carry true))

/-- `sed`. -/
def sed (c : Cpu) : Option Cpu := pure (c.mapRegisters (·.set_flag_decimal true))

/-- `sei`. -/
def sei (c : Cpu) : Option Cpu :=
  pure (c.mapRegisters (·.set_flag_interrupt_disable true))

/-- `sta`. -/
def sta (c : Cpu) (mode : AddressingMode) : Option Cpu := do
  let (address, c) ← c.get_address_from_mode mode
  pure { c with memory := Memory.write c.memory address c.registers.a }

/-- `stx`. -/
def stx (c : Cpu) (mode : AddressingMode) : Option Cpu := do
  let (address, c) ← c.get_address_from_mode mode
  pure { c with memory := Memory.write c.memory address c.registers.x }

/-- `sty`. -/
def sty (c : Cpu) (mode : AddressingMode) : Option Cpu := do
  let (address, c) ← c.get_address_from_mode mode
  pure { c with memory := Memory.write c.memory address c.registers.y }

/-- `tax`. -/
def tax (c : Cpu) : Option Cpu :=
  pure <| c.mapRegisters fun r =>
    let r := { r with x := r.a }
    r.set_zero_negative_flags r.x

/-- `tay`. -/
def tay (c : Cpu) : Option Cpu :=
  pure <| c.mapRegisters fun r =>
    let r := { r with y := r.a }
    r.set_zero_negative_flags r.y

/-- `tsx`. -/
def tsx (c : Cpu) : Option Cpu :=
  pure <| c.mapRegisters fun r =>
    let r := { r with x := r.sp }
    r.set_zero_negative_flags r.x

/-- `txa`. -/
def txa (c : Cpu) : Option Cpu :=
  pure <| c.mapRegisters fun r =>
    let r := { r with a := r.x }
    r.set_zero_negative_flags r.a

/-- `txs`. -/
def txs (c : Cpu) : Option Cpu :=
  pure (c.mapRegisters fun r => { r with sp := r.x })

/-- `tya`. -/
def tya (c : Cpu) : Option Cpu :=
  pure <| c.mapRegisters fun r =>
    let r := { r with a := r.y }
    r.set_zero_negative_flags r.a

end Cpu

/-- A decoded instruction: the mnemonic with the addressing mode the
opcode selects (the arms of the `execute_instruction` match). -/
inductive Instr
  | adc (mode : AddressingMode)
  | and (mode : AddressingMode)
  | asl (mode : Option AddressingMode)
  | bcc
  | bcs
  | beq
  | bit (mode : AddressingMode)
  | bmi
  | bne
  | bpl
  | brk
  | bvc
  | bvs
  | clc
  | cld
  | cli
  | clv
  | cmp (mode : AddressingMode)
  | cpx (mode : AddressingMode)
  | cpy (mode : AddressingMode)
  | dec (mode : AddressingMode)
  | dex
  | dey
  | eor (mode : AddressingMode)
  | inc (mode : AddressingMode)
  | inx
  | iny
  | jmp (mode : AddressingMode)
  | jsr
  | lda (mode : AddressingMode)
  | ldx (mode : AddressingMode)
  | ldy (mode : AddressingMode)
  | lsr (mode : Option AddressingMode)
  | nop
  | ora (mode : AddressingMode)
  | pha
  | php
  | pla
  | plp
  | rol (mode : Option AddressingMode)
  | ror (mode : Option AddressingMode)
  | rti
  | rts
  | sbc (mode : AddressingMode)
  | sec
  | sed
  | sei
  | sta (mode : AddressingMode)
  | stx (mode : AddressingMode)
  | sty (mode : AddressingMode)
  | tax
  | tay
  | tsx
  | txa
  | txs
  | tya

/-- The 151-entry opcode decode table: the literal arms of the
`execute_instruction` match in cpu.rs; every other byte falls to the
unknown-opcode default. -/
def decode_opcode (opcode : Nat) : Option Instr :=
  match opcode with
  | 0x69 => some (.adc .immediate)
  | 0x65 => some (.adc .zeroPage)
  | 0x75 => some (.adc .zeroPageX)
  | 0x6D => some (.adc .absolute)
  | 0x7D => some (.adc .absoluteX)
  | 0x79 => some (.adc .absoluteY)
  | 0x61 => some (.adc .indirectX)
  | 0x71 => some (.adc .indirectY)
  | 0x29 => some (.and .immediate)
  | 0x25 => some (.and .zeroPage)
  | 0x35 => some (.and .zeroPageX)
  | 0x2D => some (.and .absolute)
  | 0x3D => some (.and .absoluteX)
  | 0x39 => some (.and .absoluteY)
  | 0x21 => some (.and .indirectX)
  | 0x31 => some (.and .indirectY)
  | 0x0A => some (.asl none)
  | 0x06 => some (.asl (some .zeroPage))
  | 0x16 => some (.asl (some .zeroPageX))
  | 0x0E => some (.asl (some .absolute))
  | 0x1E => some (.asl (some .absoluteX))
  | 0x90 => some .bcc
  | 0xB0 => some .bcs
  | 0xF0 => some .beq
  | 0x24 => some (.bit .zeroPage)
  | 0x2C => some (.bit .absolute)
  | 0x30 => some .bmi
  | 0xD0 => some .bne
  | 0x10 => some .bpl
  | 0x50 => some .bvc
  | 0x70 => some .bvs
  | 0x18 => some .clc
  | 0xD8 => some .cld
  | 0x58 => some .cli
  | 0xB8 => some .clv
  | 0xC9 => some (.cmp .immediate)
  | 0xC5 => some (.cmp .zeroPage)
  | 0xD5 => some (.cmp .zeroPageX)
  | 0xCD => some (.cmp .absolute)
  | 0xDD => some (.cmp .absoluteX)
  | 0xD9 => some (.cmp .absoluteY)
  | 0xC1 => some (.cmp .indirectX)
  | 0xD1 => some (.cmp .indirectY)
  | 0xE0 => some (.cpx .immediate)
  | 0xE4 => some (.cpx .zeroPage)
  | 0xEC => some (.cpx .absolute)
  | 0xC0 => some (.cpy .immediate)
  | 0xC4 => some (.cpy .zeroPage)
  | 0xCC => some (.cpy .absolute)
  | 0xC6 => some (.dec .zeroPage)
  | 0xD6 => some (.dec .zeroPageX)
  | 0xCE => some (.dec .absolute)
  | 0xDE => some (.dec .absoluteX)
  | 0xCA => some .dex
  | 0x88 => some .dey
  | 0x49 => some (.eor .immediate)
  | 0x45 => some (.eor .zeroPage)
  | 0x55 => some (.eor .zeroPageX)
  | 0x4D => some (.eor .absolute)
  | 0x5D => some (.eor .absoluteX)
  | 0x59 => some (.eor .absoluteY)
  | 0x41 => some (.eor .indirectX)
  | 0x51 => some (.eor .indirectY)
  | 0xE6 => some (.inc .zeroPage)
  | 0xF6 => some (.inc .zeroPageX)
  | 0xEE => some (.inc .absolute)
  | 0xFE => some (.inc .absoluteX)
  | 0xE8 => some .inx
  | 0xC8 => some .iny
  | 0x4C => some (.jmp .absolute)
  | 0x6C => some (.jmp .indirect)
  | 0x20 => some .jsr
  | 0xA9 => some (.lda .immediate)
  | 0xA5 => some (.lda .zeroPage)
  | 0xB5 => some (.lda .zeroPageX)
  | 0xAD => some (.lda .absolute)
  | 0xBD => some (.lda .absoluteX)
  | 0xB9 => some (.lda .absoluteY)
  | 0xA1 => some (.lda .indirectX)
  | 0xB1 => some (.lda .indirectY)
  | 0xA2 => some (.ldx .immediate)
  | 0xA6 => some (.ldx .zeroPage)
  | 0xB6 => some (.ldx .zeroPageY)
  | 0xAE => some (.ldx .absolute)
  | 0xBE => some (.ldx .absoluteY)
  | 0xA0 => some (.ldy .immediate)
  | 0xA4 => some (.ldy .zeroPage)
  | 0xB4 => some (.ldy .zeroPageX)
  | 0xAC => some (.ldy .absolute)
  | 0xBC => some (.ldy .absoluteX)
  | 0x4A => some (.lsr none)
  | 0x46 => some (.lsr (some .zeroPage))
  | 0x56 => some (.lsr (some .zeroPageX))
  | 0x4E => some (.lsr (some .absolute))
  | 0x5E => some (.lsr (some .absoluteX))
  | 0xEA => some .nop
  | 0x09 => some (.ora .immediate)
  | 0x05 => some (.ora .zeroPage)
  | 0x15 => some (.ora .zeroPageX)
  | 0x0D => some (.ora .absolute)
  | 0x1D => some (.ora .absoluteX)
  | 0x19 => some (.ora .absoluteY)
  | 0x01 => some (.ora .indirectX)
  | 0x11 => some (.ora .indirectY)
  | 0x48 => some .pha
  | 0x08 => some .php
  | 0x68 => some .pla
  | 0x28 => some .plp
  | 0x2A => some (.rol none)
  | 0x26 => some (.rol (some .zeroPage))
  | 0x36 => some (.rol (some .zeroPageX))
  | 0x2E => some (.rol (some .absolute))
  | 0x3E => some (.rol (some .absoluteX))
  | 0x6A => some (.ror none)
  | 0x66 => some (.ror (some .zeroPage))
  | 0x76 => some (.ror (some .zeroPageX))
  | 0x6E => some (.ror (some .absolute))
  | 0x7E => some (.ror (some .absoluteX))
  | 0x40 => some .rti
  | 0x60 => some .rts
  | 0xE9 => some (.sbc .immediate)
  | 0xE5 => some (.sbc .zeroPage)
  | 0xF5 => some (.sbc .zeroPageX)
  | 0xED => some (.sbc .absolute)
  | 0xFD => some (.sbc .absoluteX)
  | 0xF9 => some (.sbc .absoluteY)
  | 0xE1 => some (.sbc .indirectX)
  | 0xF1 => some (.sbc .indirectY)
  | 0x38 => some .sec
  | 0xF8 => some .sed
  | 0x78 => some .sei
  | 0x85 => some (.sta .zeroPage)
  | 0x95 => some (.sta .zeroPageX)
  | 0x8D => some (.sta .absolute)
  | 0x9D => some (.sta .absoluteX)
  | 0x99 => some (.sta .absoluteY)
  | 0x81 => some (.sta .indirectX)
  | 0x91 => some (.sta .indirectY)
  | 0x86 => some (.stx .zeroPage)
  | 0x96 => some (.stx .zeroPageY)
  | 0x8E => some (.stx .absolute)
  | 0x84 => some (.sty .zeroPage)
  | 0x94 => some (.sty .zeroPageX)
  | 0x8C => some (.sty .absolute)
  | 0xAA => some .tax
  | 0xA8 => some .tay
  | 0xBA => some .tsx
  | 0x8A => some .txa
  | 0x9A => some .txs
  | 0x98 => some .tya
  | 0x00 => some .brk
  | _ => none

namespace Cpu

/-- A `DebugKind::Warn` message through the debug sink. -/
def warn (c : Cpu) : Cpu := { c with warns := c.warns + 1 }

/-- `execute_instruction` of cpu.rs: `pc += 1`, then dispatch on the
opcode; `BRK` and `NOP` have empty arms, an unlisted opcode emits a
warning and does nothing else. -/
def execute_instruction (c : Cpu) (opcode : Nat) : Option Cpu := do
  let c ← c.pcAdd 1
  match decode_opcode opcode with
  | some (.adc mode) => c.adc mode
  | some (.and mode) => c.and mode
  | some (.asl mode) => c.asl mode
  | some .bcc => c.bcc
  | some .bcs => c.bcs
  | some .beq => c.beq
  | some (.bit mode) => c.bit mode
  | some .bmi => c.bmi
  | some .bne => c.bne
  | some .bpl => c.bpl
  | some .brk => pure c
  | some .bvc => c.bvc
  | some .bvs => c.bvs
  | some .clc => c.clc
  | some .cld => c.cld
  | some .cli => c.cli
  | some .clv => c.clv
  | some (.cmp mode) => c.cmp mode
  | some (.cpx mode) => c.cpx mode
  | some (.cpy mode) => c.cpy mode
  | some (.dec mode) => c.dec mode
  | some .dex => c.dex
  | some .dey => c.dey
  | some (.eor mode) => c.eor mode
  | some (.inc mode) => c.inc mode
  | some .inx => c.inx
  | some .iny => c.iny
  | some (.jmp mode) => c.jmp mode
  | some .jsr => c.jsr
  | some (.lda mode) => c.lda mode
  | some (.ldx mode) => c.ldx mode
  | some (.ldy mode) => c.ldy mode
  | some (.lsr mode) => c.lsr mode
  | some .nop => pure c
  | some (.ora mode) => c.ora mode
  | some .pha => c.pha
  | some .php => c.php
  | some .pla => c.pla
  | some .plp => c.plp
  | some (.rol mode) => c.rol mode
  | some (.ror mode) => c.ror mode
  | some .rti => c.rti
  | some .rts => c.rts
  | some (.sbc mode) => c.sbc mode
  | some .sec => c.sec
  | some .sed => c.sed
  | some .sei => c.sei
  | some (.sta mode) => c.sta mode
  | some (.stx mode) => c.stx mode
  | some (.sty mode) => c.sty mode
  | some .tax => c.tax
  | some .tay => c.tay
  | some .tsx => c.tsx
  | some .txa => c.txa
  | some .txs => c.txs
  | some .tya => c.tya
  | none => pure (warn c)

/-- One iteration of the fetch-decode-execute loop (`step`): read the
opcode at PC and execute it. -/
def step (c : Cpu) : Option Cpu :=
  c.execute_instruction (Memory.read c.memory c.registers.pc)

end Cpu

/-! The assembler (src/assembler/src/lib.rs): the data model and the
pass-2 operand emission `assemble_operand_data`. -/

namespace Asm

/-- Source position `Position(line, column)`. -/
structure Position where
  line : Nat
  column : Nat
deriving Repr, DecidableEq

/-- The 11 encoded addressing-mode surface forms of the assembler. -/
inductive AddressingMode
  | IMPACC
  | IMM
  | RELZPG
  | ZPX
  | ZPY
  | ABS
  | ABX
  | ABY
  | IND
  | IDX
  | IDY
deriving Repr, DecidableEq

/-- The closed `Mnemonics` enumeration of 56 instructions. -/
inductive Mnemonics
  | ADC
  | AND
  | ASL
  | BCC
  | BCS
  | BEQ
  | BIT
  | BMI
  | BNE
  | BPL
  | BRK
  | BVC
  | BVS
  | CLC
  | CLD
  | CLI
  | CLV
  | CMP
  | CPX
  | CPY
  | DEC
  | DEX
  | DEY
  | EOR
  | INC
  | INX
  | INY
  | JMP
  | JSR
  | LDA
  | LDX
  | LDY
  | LSR
  | NOP
  | ORA
  | PHA
  | PHP
  | PLA
  | PLP
  | ROL
  | ROR
  | RTI
  | RTS
  | SBC
  | SEC
  | SED
  | SEI
  | STA
  | STX
  | STY
  | TAX
  | TAY
  | TSX
  | TXA
  | TXS
  | TYA

/-- `NumberType`: width-tagged numeric literal values (`u8` / `u16`). -/
inductive NumberType
  | Decimal8 (v : Nat)
  | Decimal16 (v : Nat)
  | Hexadecimal8 (v : Nat)
  | Hexadecimal16 (v : Nat)

/-- `OperandData`: a numeric literal or a label reference. -/
inductive OperandData
  | Number (n : NumberType)
  | Label (label : String)

/-- `Operand`: optional operand data plus addressing mode. -/
structure Operand where
  value : Option OperandData
  addressing_mode : AddressingMode

/-- `Instruction`. -/
structure Instruction where
  opcode : Mnemonics
  operand : Operand
  position : Position

/-- The assembler error taxonomy (`AssemblerErrorKind`). -/
inductive AssemblerErrorKind
  | IllegalCharacter (c : Char)
  | InvalidNumber
  | UnexpectedToken (expected found : String)
  | UnexpectedToken2
  | InvalidOperand (operand : String)
  | InvalidLabel (label : String)
  | InvalidInstruction (mnemonic : String) (mode : AddressingMode)
  | InvalidMnemonic (mnemonic : String)
  | InvalidOpcode (opcode : Nat)

/-- The `HashMap<String, u16>` label table as an association list. -/
def lookupLabel (labels : List (String × Nat)) (label : String) : Option Nat :=
  (labels.find? (fun e => e.1 == label)).map (·.2)

/-- The branch-class test: the eight mnemonics singled out by the
match arms in `preprocess_operand` and `assemble_operand_data`. -/
def isBranch (m : Mnemonics) : Bool :=
  match m with
  | .BCC | .BCS | .BEQ | .BMI | .BNE | .BPL | .BVC | .BVS => true
  | _ => false

/-- `assemble_operand_data` of lib.rs, at the moment pass 2 reaches an
instruction: `pointer` is the instruction's start offset (the cursor
is advanced only after the bytes are produced).  The branch byte is
`(*address as i16 - pointer as i16 - 2) as u8`, i.e. the difference
modulo 256; the non-branch case emits `address + 0x8000` as a
little-endian pair. -/
def assemble_operand_data (labels : List (String × Nat)) (pointer : Nat)
    (i : Instruction) : Except AssemblerErrorKind (List Nat × AddressingMode) :=
  match i.operand.value with
  | none => .ok ([], .IMPACC)
  | some (.Number nt) =>
      match nt with
      | .Decimal8 v => .ok ([v % 256], i.operand.addressing_mode)
      | .Decimal16 v => .ok ([v % 256, v / 256 % 256], i.operand.addressing_mode)
      | .Hexadecimal8 v => .ok ([v % 256], i.operand.addressing_mode)
      | .Hexadecimal16 v => .ok ([v % 256, v / 256 % 256], i.operand.addressing_mode)
  | some (.Label label) =>
      match lookupLabel labels label with
      | some address =>
          if isBranch i.opcode then
            let relative := (((address : Int) - (pointer : Int) - 2) % 256).toNat
            .ok ([relative], i.operand.addressing_mode)
          else
            let absolute := address + 0x8000
            .ok ([absolute % 256, absolute / 256 % 256], i.operand.addressing_mode)
      | none => .error (.InvalidLabel label)

end Asm

/-! Concrete machine states used by the counterexample and witness
theorems. -/

/-- Memory populated from an address/byte association list. -/
def memOf (l : List (Nat × Nat)) : Mem :=
  l.foldl (fun m e => Memory.write m e.1 e.2) Memory.zeroed

/-- A CPU state about to execute `SBC #$04` with `A = 0x08` and the
carry flag set (the spec's scenario 6). -/
def sbcTestCpu : Cpu :=
  { registers := { a := 0x08, x := 0, y := 0, p := 0b00000001, sp := 0, pc := 0x8000 }
    memory := memOf [(0x8000, 0xE9), (0x8001, 0x04)]
    warns := 0 }

/-- A CPU state about to execute `SBC #$FF`. -/
def sbcFFCpu : Cpu :=
  { registers := { a := 0x08, x := 0, y := 0, p := 0b00000001, sp := 0, pc := 0x8000 }
    memory := memOf [(0x8000, 0xE9), (0x8001, 0xFF)]
    warns := 0 }

/-- A CPU state about to execute `ASL $10` (opcode `0x06`), with
`mem[0x10] = 0x40` and a `BRK` byte after the operand. -/
def aslTestCpu : Cpu :=
  { registers := { a := 0, x := 0, y := 0, p := 0, sp := 0, pc := 0x8000 }
    memory := memOf [(0x8000, 0x06), (0x8001, 0x10), (0x8002, 0x00), (0x0010, 0x40)]
    warns := 0 }

/-- A CPU state for resolving the IndirectX / IndirectY modes, set up
as in the repository's own addressing-mode tests. -/
def indirectTestCpu : Cpu :=
  { registers := { a := 0, x := 0x03, y := 0x02, p := 0, sp := 0, pc := 0x8000 }
    memory := memOf [(0x8000, 0x01), (0x0004, 0x03), (0x0005, 0x04)]
    warns := 0 }

/-- A CPU state whose AbsoluteX / AbsoluteY base is `0xFFFF` with
index registers 1: the index addition overflows `u16`. -/
def absIdxOverflowCpu : Cpu :=
  { registers := { a := 0, x := 0x01, y := 0x01, p := 0, sp := 0, pc := 0x1000 }
    memory := memOf [(0x1000, 0xFF), (0x1001, 0xFF)]
    warns := 0 }

/-- A CPU state whose IndirectY pointer target holds `0xFFFF` with
`Y = 1`: the index addition overflows `u16`. -/
def indYOverflowCpu : Cpu :=
  { registers := { a := 0, x := 0, y := 0x01, p := 0, sp := 0, pc := 0x1000 }
    memory := memOf [(0x1000, 0x10), (0x0010, 0xFF), (0x0011, 0xFF)]
    warns := 0 }

/-- The register file of the ADC concrete scenario: `A = 0x78`, carry
set. -/
def adcWitnessReg : Registers := ⟨0x78, 0, 0, 0b00000001, 0, 0x8000⟩

/-- A `BNE FOO` instruction with a label operand, as produced for the
repository's own branch/label test program. -/
def bneFooInstr : Asm.Instruction :=
  { opcode := .BNE
    operand := { value := some (.Label "FOO"), addressing_mode := .RELZPG }
    position := ⟨4, 1⟩ }

/-- An `LDA FOO` instruction with a label operand (non-branch). -/
def ldaFooInstr : Asm.Instruction :=
  { opcode := .LDA
    operand := { value := some (.Label "FOO"), addressing_mode := .ABS }
    position := ⟨2, 1⟩ }

/-! Flag bit-field lemmas: the carry / overflow / zero / negative bits
written by the `C, V, Z, N` update chain of
`add_to_accumulator_with_carry` are read back unchanged, and the
status byte stays a byte.  Finite checks over the 256 byte values. -/

set_option maxRecDepth 4000 in
theorem get_c_after_cvzn : ∀ p < 256, ∀ b1 b2 b3 b4 : Bool,
    get_c (set_n (set_z (set_v (set_c p b1) b2) b3) b4) = b1 := by decide

set_option maxRecDepth 4000 in
theorem get_v_after_cvzn : ∀ p < 256, ∀ b1 b2 b3 b4 : Bool,
    get_v (set_n (set_z (set_v (set_c p b1) b2) b3) b4) = b2 := by decide

set_option maxRecDepth 4000 in
theorem get_z_after_cvzn : ∀ p < 256, ∀ b1 b2 b3 b4 : Bool,
    get_z (set_n (set_z (set_v (set_c p b1) b2) b3) b4) = b3 := by decide

set_option maxRecDepth 4000 in
theorem get_n_after_cvzn : ∀ p < 256, ∀ b1 b2 b3 b4 : Bool,
    get_n (set_n (set_z (set_v (set_c p b1) b2) b3) b4) = b4 := by decide

set_option maxRecDepth 4000 in
theorem cvzn_lt_256 : ∀ p < 256, ∀ b1 b2 b3 b4 : Bool,
    set_n (set_z (set_v (set_c p b1) b2) b3) b4 < 256 := by decide

/-- Unfolding of `add_to_accumulator_with_carry` into a single record
update, with the carry-in made explicit as `0` or `1`. -/
theorem add_to_accumulator_with_carry_eq (r : Registers) (data : Nat) :
    add_to_accumulator_with_carry r data =
      { r with
        a := (r.a + data + (if r.get_flag_carry then 1 else 0)) % 256
        p := set_n (set_z (set_v (set_c r.p
                (decide ((r.a + data + (if r.get_flag_carry then 1 else 0)) > 255)))
                (((r.a ^^^ (r.a + data + (if r.get_flag_carry then 1 else 0)) % 256) &&&
                  (data ^^^ (r.a + data + (if r.get_flag_carry then 1 else 0)) % 256)) &&& 0x80 != 0))
                ((r.a + data + (if r.get_flag_carry then 1 else 0)) % 256 == 0))
              ((r.a + data + (if r.get_flag_carry then 1 else 0)) % 256 &&& 0x80 != 0) } := by
  cases hc : r.get_flag_carry <;>
    simp [add_to_accumulator_with_carry, hc, Registers.set_flag_carry,
      Registers.set_flag_overflow, Registers.set_zero_negative_flags,
      Registers.set_flag_zero, Registers.set_flag_negative]

/-- The register file produced by `add_to_accumulator_with_carry`,
field by field: `A` becomes the sum modulo 256, `X`, `Y`, `SP`, `PC`
are untouched, and the four arithmetic flags hold the carry, the
signed-overflow XOR rule, the zero test and bit 7 of the result. -/
theorem add_to_accumulator_with_carry_spec (r : Registers) (data : Nat)
    (hp : r.p < 256) :
    (add_to_accumulator_with_carry r data).a
        = (r.a + data + (if r.get_flag_carry then 1 else 0)) % 256
    ∧ (add_to_accumulator_with_carry r data).x = r.x
    ∧ (add_to_accumulator_with_carry r data).y = r.y
    ∧ (add_to_accumulator_with_carry r data).sp = r.sp
    ∧ (add_to_accumulator_with_carry r data).pc = r.pc
    ∧ (add_to_accumulator_with_carry r data).get_flag_carry
        = decide ((r.a + data + (if r.get_flag_carry then 1 else 0)) > 255)
    ∧ (add_to_accumulator_with_carry r data).get_flag_overflow
        = (((r.a ^^^ (r.a + data + (if r.get_flag_carry then 1 else 0)) % 256) &&&
            (data ^^^ (r.a + data + (if r.get_flag_carry then 1 else 0)) % 256)) &&& 0x80 != 0)
    ∧ (add_to_accumulator_with_carry r data).get_flag_zero
        = ((r.a + data + (if r.get_flag_carry then 1 else 0)) % 256 == 0)
    ∧ (add_to_accumulator_with_carry r data).get_flag_negative
        = ((r.a + data + (if r.get_flag_carry then 1 else 0)) % 256 &&& 0x80 != 0)
    ∧ (add_to_accumulator_with_carry r data).p < 256 := by
  rw [add_to_accumulator_with_carry_eq]
  refine ⟨rfl, rfl, rfl, rfl, rfl, ?_, ?_, ?_, ?_, ?_⟩
  · exact get_c_after_cvzn r.p hp _ _ _ _
  · exact get_v_after_cvzn r.p hp _ _ _ _
  · exact get_z_after_cvzn r.p hp _ _ _ _
  · exact get_n_after_cvzn r.p hp _ _ _ _
  · exact cvzn_lt_256 r.p hp _ _ _ _

/-- C4: for all `a, m ∈ [0,255]` and carry-in `c ∈ {0,1}`, executing
ADC (which routes every addressing mode through
`add_to_accumulator_with_carry`) yields new `A = (a+m+c) % 256`, carry
`C ↔ a+m+c ≥ 256`, `Z ↔ new A = 0`, `N ↔ bit 7 of new A`, and
`V ↔ ((a XOR result) AND (m XOR result) AND 0x80) ≠ 0`. -/
theorem C4_adc_arithmetic (r : Registers) (m : Nat)
    (hp : r.p < 256) (ha : r.a < 256) (hm : m < 256) :
    (add_to_accumulator_with_carry r m).a
        = (r.a + m + (if r.get_flag_carry then 1 else 0)) % 256
    ∧ ((add_to_accumulator_with_carry r m).get_flag_carry = true
        ↔ r.a + m + (if r.get_flag_carry then 1 else 0) ≥ 256)
    ∧ ((add_to_accumulator_with_carry r m).get_flag_zero = true
        ↔ (add_to_accumulator_with_carry r m).a = 0)
    ∧ ((add_to_accumulator_with_carry r m).get_flag_negative = true
        ↔ (add_to_accumulator_with_carry r m).a &&& 0x80 ≠ 0)
    ∧ ((add_to_accumulator_with_carry r m).get_flag_overflow = true
        ↔ ((r.a ^^^ (add_to_accumulator_with_carry r m).a) &&&
           (m ^^^ (add_to_accumulator_with_carry r m).a)) &&& 0x80 ≠ 0) := by
  obtain ⟨h1, -, -, -, -, h6, h7, h8, h9, -⟩ :=
    add_to_accumulator_with_carry_spec r m hp
  refine ⟨h1, ?_, ?_, ?_, ?_⟩
  · rw [h6]
    simp only [decide_eq_true_eq, gt_iff_lt, ge_iff_le]
    omega
  · rw [h8, h1]
    simp [beq_iff_eq]
  · rw [h9, h1]
    simp [bne_iff_ne]
  · rw [h7, h1]
    simp [bne_iff_ne]

/-- Witness for C4 at the repository's own ADC scenario
(`A = 0x78`, `M = 0x07`, carry set): result `0x80` with
`C = 0`, `Z = 0`, `N = 1`, `V = 1`. -/
theorem C4_adc_arithmetic_witness :
    (add_to_accumulator_with_carry adcWitnessReg 0x07).a = 0x80
    ∧ ((add_to_accumulator_with_carry adcWitnessReg 0x07).get_flag_carry = true
        ↔ 0x78 + 0x07 + 1 ≥ 256)
    ∧ ((add_to_accumulator_with_carry adcWitnessReg 0x07).get_flag_zero = true
        ↔ (add_to_accumulator_with_carry adcWitnessReg 0x07).a = 0)
    ∧ ((add_to_accumulator_with_carry adcWitnessReg 0x07).get_flag_negative = true
        ↔ (add_to_accumulator_with_carry adcWitnessReg 0x07).a &&& 0x80 ≠ 0)
    ∧ ((add_to_accumulator_with_carry adcWitnessReg 0x07).get_flag_overflow = true
        ↔ ((0x78 ^^^ (add_to_accumulator_with_carry adcWitnessReg 0x07).a) &&&
           (0x07 ^^^ (add_to_accumulator_with_carry adcWitnessReg 0x07).a)) &&& 0x80 ≠ 0) :=
  C4_adc_arithmetic adcWitnessReg 0x07 (by decide) (by decide) (by decide)

/-- C7: executing `SBC` immediate with `A = 0x08`, operand `M = 0x04`
and the carry flag set yields `A = 0x03`, `C = 1`, `V = 0`, `Z = 0`,
`N = 0`. -/
theorem C7_sbc_scenario :
    ((Cpu.step sbcTestCpu).map fun c =>
        (c.registers.a, c.registers.get_flag_carry, c.registers.get_flag_overflow,
         c.registers.get_flag_zero, c.registers.get_flag_negative, c.registers.pc))
      = some (0x03, true, false, false, false, 0x8002) := by decide

/-- C1 counterexample: executing `SBC` immediate with `A = 0x08`,
`M = 0x04`, carry set leaves `A = 0x03`, while the claimed
`A + (NOT M) + C` two's-complement form gives `0x04`. -/
theorem C1_counterexample :
    ((Cpu.step sbcTestCpu).map fun c => c.registers.a) = some 0x03
    ∧ (0x08 + u8not 0x04 + 1) % 256 = 0x04
    ∧ (0x03 : Nat) ≠ 0x04 := by decide

/-- C1 amended: for every CPU state and operand byte `M ≠ 0xFF`, the
SBC data path feeds `(NOT M) - 1` into the ADC routine, so `A` becomes
the 8-bit result of `A + (NOT M) + C - 1` and the `N, V, Z, C` flags
follow the ADC rules applied to that sum; at `M = 0xFF` the operand
computation underflows and the instruction is undefined. -/
theorem C1_sbc_semantics (c : Cpu) (m : Nat)
    (hm : m < 256) (hff : m ≠ 0xFF) :
    Cpu.sbcData c m
      = some (c.mapRegisters (add_to_accumulator_with_carry · (u8not m - 1)))
    ∧ ((Cpu.sbcData c m).map fun c2 => c2.registers.a)
      = some ((c.registers.a + u8not m
                + (if c.registers.get_flag_carry then 1 else 0) - 1) % 256) := by
  have hsub : Cpu.sbc_operand m = some (u8not m - 1) := by
    unfold Cpu.sbc_operand chkSub8 u8not
    rw [if_pos (by omega)]
  constructor
  · rw [Cpu.sbcData, hsub]
    simp only [Option.map_some']
  · rw [Cpu.sbcData, hsub]
    simp only [Option.map_some', Cpu.mapRegisters, add_to_accumulator_with_carry_eq]
    congr 1
    unfold u8not
    omega

/-- Witness for C1's amended statement at the concrete SBC scenario
state (`A = 0x08`, `M = 0x04`, carry set): the result byte is `0x03`. -/
theorem C1_sbc_semantics_witness :
    Cpu.sbcData sbcTestCpu 0x04
      = some (sbcTestCpu.mapRegisters (add_to_accumulator_with_carry · (u8not 0x04 - 1)))
    ∧ ((Cpu.sbcData sbcTestCpu 0x04).map fun c2 => c2.registers.a) = some 0x03 :=
  C1_sbc_semantics sbcTestCpu 0x04 (by decide) (by decide)

/-- C2 fails on the code (code bug): executing `ASL $10` (bytes
`06 10 00` at `0x8000`, `mem[0x10] = 0x40`) reads `0x40` from the
effective address `0x10` but leaves `mem[0x10]` unchanged, stores the
shifted byte `0x80` at `mem[0x00]` (the address re-resolved from the
byte after the operand), and advances PC past the operand twice, to
`0x8003`; the claim requires the write-back at `0x10` with a single
operand advance (PC `0x8002`). -/
theorem C2_asl_rmw_divergence :
    ((Cpu.step aslTestCpu).map fun c =>
        (Memory.read c.memory 0x10, Memory.read c.memory 0x00, c.registers.pc))
      = some (0x40, 0x80, 0x8003) := by decide

/-- `pc += n` succeeds and only moves PC when the sum stays in 16
bits. -/
theorem pcAdd_eq (c : Cpu) (n : Nat) (h : c.registers.pc + n ≤ 0xFFFF) :
    c.pcAdd n
      = some { c with registers := { c.registers with pc := c.registers.pc + n } } := by
  unfold Cpu.pcAdd chkAdd16
  rw [if_pos h]
  rfl

/-- C3 counterexample: resolving IndirectX from the repository's own
addressing-mode test state returns the claimed effective address
`0x0403` but advances PC from `0x8000` to `0x8003` (the operand byte
plus a spurious `pc += 2`), not to `0x8001` as the claim states. -/
theorem C3_counterexample :
    ((Cpu.get_address_from_mode indirectTestCpu .indirectX).map
        fun r => (r.1, r.2.registers.pc))
      = some (0x0403, 0x8003)
    ∧ (0x8003 : Nat) ≠ 0x8000 + 1 := by decide

/-- C3 amended: IndirectX resolves to
`read_addr((mem[PC] + X) mod 256)` and IndirectY to
`read_addr(mem[PC]) + Y`, but each advances PC by exactly 3, not 1
(when neither the PC advance nor the IndirectY index addition
overflows 16 bits). -/
theorem C3_indirect_addressing (c : Cpu)
    (h1 : c.registers.pc + 3 ≤ 0xFFFF)
    (h2 : Memory.read_addr c.memory (Memory.read c.memory c.registers.pc)
            + c.registers.y ≤ 0xFFFF) :
    Cpu.get_address_from_mode c .indirectX
      = some (Memory.read_addr c.memory
                ((Memory.read c.memory c.registers.pc + c.registers.x) % 256),
              { c with registers := { c.registers with pc := c.registers.pc + 3 } })
    ∧ Cpu.get_address_from_mode c .indirectY
      = some (Memory.read_addr c.memory (Memory.read c.memory c.registers.pc)
                + c.registers.y,
              { c with registers := { c.registers with pc := c.registers.pc + 3 } }) := by
  have e1 : c.pcAdd 1
      = some { c with registers := { c.registers with pc := c.registers.pc + 1 } } :=
    pcAdd_eq c 1 (by omega)
  have e3 : c.registers.pc + 1 + 2 = c.registers.pc + 3 := by omega
  constructor
  · simp only [Cpu.get_address_from_mode, e1, Option.bind_eq_bind, Option.some_bind]
    rw [pcAdd_eq _ 2 (by simp only []; omega)]
    simp only [Option.some_bind, wrapAdd8, e3]
    rfl
  · simp only [Cpu.get_address_from_mode, e1, Option.bind_eq_bind, Option.some_bind]
    rw [pcAdd_eq _ 2 (by simp only []; omega)]
    simp only [Option.some_bind, e3]
    rw [show chkAdd16 (Memory.read_addr c.memory (Memory.read c.memory c.registers.pc))
          c.registers.y
        = some (Memory.read_addr c.memory (Memory.read c.memory c.registers.pc)
            + c.registers.y) from by unfold chkAdd16; rw [if_pos h2]]
    simp only [Option.some_bind]
    rfl

/-- Witness for C3's amended statement at the repository's
addressing-mode test state: addresses `0x0403` / `0x0002`, final PC
`0x8003` in both modes. -/
theorem C3_indirect_addressing_witness :
    Cpu.get_address_from_mode indirectTestCpu .indirectX
      = some (0x0403,
              { indirectTestCpu with registers :=
                  { indirectTestCpu.registers with pc := 0x8003 } })
    ∧ Cpu.get_address_from_mode indirectTestCpu .indirectY
      = some (0x0002,
              { indirectTestCpu with registers :=
                  { indirectTestCpu.registers with pc := 0x8003 } }) :=
  C3_indirect_addressing indirectTestCpu (by decide) (by decide)

/-- C6: for every opcode byte outside the decode table (the 151 match
arms transcribed in `decode_opcode`; `decode_opcode op = none`), one
instruction step emits a warning through the debug sink, advances PC
by exactly 1, leaves A, X, Y, SP, P and all of memory unchanged, and
does not abort (given that the `pc += 1` fetch advance itself stays in
16 bits). -/
theorem C6_unknown_opcode (c : Cpu) (op : Nat)
    (hop : decode_opcode op = none)
    (hpc : c.registers.pc + 1 ≤ 0xFFFF) :
    Cpu.execute_instruction c op
      = some { c with
                registers := { c.registers with pc := c.registers.pc + 1 }
                warns := c.warns + 1 } := by
  simp only [Cpu.execute_instruction, pcAdd_eq c 1 hpc, Option.bind_eq_bind,
    Option.some_bind, hop]
  rfl

/-- Witness for C6 at the undecodable byte `0x02`: PC moves one byte,
one warning is recorded, everything else is untouched. -/
theorem C6_unknown_opcode_witness :
    Cpu.execute_instruction sbcTestCpu 0x02
      = some { sbcTestCpu with
                registers := { sbcTestCpu.registers with pc := 0x8001 }
                warns := 1 } :=
  C6_unknown_opcode sbcTestCpu 0x02 rfl (by decide)

/-- C8: for every byte `b` and every starting SP, `stack_push b`
followed by `stack_pop` returns `b` and leaves SP at its original
value, including across the 0x00/0xFF wrap. -/
theorem C8_stack_roundtrip (c : Cpu) (b : Nat) (hsp : c.registers.sp < 256) :
    ((c.stack_push b).stack_pop).1 = b
    ∧ ((c.stack_push b).stack_pop).2.registers.sp = c.registers.sp := by
  have hsp2 : ((c.registers.sp + 256 - 1) % 256 + 1) % 256 = c.registers.sp := by
    omega
  constructor
  · simp only [Cpu.stack_push, Cpu.stack_pop, wrapSub8, wrapAdd8, Memory.read,
      Memory.write, hsp2]
    simp
  · simp only [Cpu.stack_push, Cpu.stack_pop, wrapSub8, wrapAdd8, hsp2]

/-- Witness for C8 at `SP = 0` (the wrapping corner): pushing then
popping `0x5A` returns it and restores `SP = 0`. -/
theorem C8_stack_roundtrip_witness :
    ((sbcTestCpu.stack_push 0x5A).stack_pop).1 = 0x5A
    ∧ ((sbcTestCpu.stack_push 0x5A).stack_pop).2.registers.sp = 0 :=
  C8_stack_roundtrip sbcTestCpu 0x5A (by decide)

/-- C9: the SBC operand expression `!data - 1` underflows `u8` exactly
at `M = 0xFF` (`!0xFF = 0`): the data path is `none` there — a panic
in a checked build, not a wrapped result — and is defined for every
`M ≠ 0xFF`; a concrete `SBC #$FF` step aborts. -/
theorem C9_sbc_operand_underflow :
    (∀ c : Cpu, Cpu.sbcData c 0xFF = none)
    ∧ (∀ m : Nat, m < 0xFF → ∀ c : Cpu, (Cpu.sbcData c m).isSome = true)
    ∧ Cpu.step sbcFFCpu = none := by
  refine ⟨fun c => rfl, fun m hm c => ?_, rfl⟩
  unfold Cpu.sbcData Cpu.sbc_operand chkSub8 u8not
  rw [if_pos (by omega)]
  rfl

/-- Witness for C9: underflow at `M = 0xFF`, success at `M = 0x04`. -/
theorem C9_sbc_operand_underflow_witness :
    Cpu.sbcData sbcTestCpu 0xFF = none
    ∧ (Cpu.sbcData sbcTestCpu 0x04).isSome = true :=
  ⟨C9_sbc_operand_underflow.1 sbcTestCpu,
   C9_sbc_operand_underflow.2.1 0x04 (by decide) sbcTestCpu⟩

/-- C10: the AbsoluteX / AbsoluteY / IndirectY effective-address
computations add the index register to the 16-bit base unchecked: at
base `0xFFFF` with index 1 the sum exceeds `0xFFFF` and resolution is
`none` (a checked-build panic), not a value reduced mod 65536. -/
theorem C10_indexed_address_overflow :
    Memory.read_addr absIdxOverflowCpu.memory 0x1000 = 0xFFFF
    ∧ absIdxOverflowCpu.registers.x = 1
    ∧ absIdxOverflowCpu.registers.y = 1
    ∧ Cpu.get_address_from_mode absIdxOverflowCpu .absoluteX = none
    ∧ Cpu.get_address_from_mode absIdxOverflowCpu .absoluteY = none
    ∧ Cpu.get_address_from_mode indYOverflowCpu .indirectY = none :=
  ⟨rfl, rfl, rfl, rfl, rfl, rfl⟩

/-- C5: in assembler pass 2, an instruction whose operand is a label
resolves it in the label table: a branch mnemonic emits the single
byte `(target - offset - 2)` wrapped to 8 bits (`offset` the
instruction's start offset, which is the pass-2 cursor value when the
operand is assembled), any other mnemonic emits `target + 0x8000` as a
little-endian 16-bit pair, and an undefined label fails with
`InvalidLabel`. -/
theorem C5_label_operand_emission (labels : List (String × Nat))
    (pointer : Nat) (i : Asm.Instruction) (label : String)
    (hv : i.operand.value = some (.Label label)) :
    Asm.assemble_operand_data labels pointer i =
      match Asm.lookupLabel labels label with
      | some target =>
          if Asm.isBranch i.opcode then
            .ok ([(((target : Int) - (pointer : Int) - 2) % 256).toNat],
                 i.operand.addressing_mode)
          else
            .ok ([(target + 0x8000) % 256, (target + 0x8000) / 256 % 256],
                 i.operand.addressing_mode)
      | none => .error (.InvalidLabel label) := by
  simp only [Asm.assemble_operand_data, hv]

/-- Witness for C5 on the repository's own branch/label program:
`BNE FOO` at offset 4 with `FOO` at offset 11 emits displacement
`0x05`. -/
theorem C5_label_operand_emission_witness :
    Asm.assemble_operand_data [("FOO", 11)] 4 bneFooInstr = .ok ([5], .RELZPG) :=
  C5_label_operand_emission [("FOO", 11)] 4 bneFooInstr "FOO" rfl

end Spec6502
